import Mathlib

/-
  Verification of the CloudWatch-alarm-management-for-ASG repository.

  Shallow embedding of the two lambda handlers:
    - src/lambda/ddb/default_alarms.py   (definition-change reconciler)
    - src/lambda/cw_alarm/cw_alarm.py    (lifecycle reconciler)

  Python strings are modelled as lists of characters; Python dicts that may
  miss keys are modelled as association lists with Option-valued lookup;
  calls to external AWS services are modelled as an explicit trace of calls,
  with a boolean oracle deciding which monitoring-service calls raise
  ClientError; an uncaught Python exception is modelled as an error value
  terminating the trace.
-/

/-- Python strings, modelled as lists of characters. -/
abbrev Str := List Char

/-- Coerce a Lean string literal to the character-list model. -/
def chars (s : String) : Str := s.toList

/- ## The hyphen split/join used to encode and decode alarm names.

   default_alarms.py line 61: alarm_name.split('-')
   default_alarms.py line 62: '-'.join(alarm_name_parts[2:-1])
-/

/-- Helper for splitHyp: prepend a character to the first piece. -/
def consHead (c : Char) : List Str → List Str
  | [] => [[c]]
  | p :: ps => (c :: p) :: ps

/-- Python s.split('-'): split into the (always nonempty) list of
hyphen-separated pieces. -/
def splitHyp : Str → List Str
  | [] => [[]]
  | c :: rest => if c = '-' then [] :: splitHyp rest else consHead c (splitHyp rest)

/-- Python '-'.join(pieces). -/
def joinHyp : List Str → Str
  | [] => []
  | [p] => p
  | p :: q :: ps => p ++ '-' :: joinHyp (q :: ps)

/-- The alarm-name encoding used at every name-construction site of both
handlers: the f-string joining application name, application type, instance
id and a suffix with hyphens (cw_alarm.py line 140, default_alarms.py
lines 104 and 135). -/
def encodeAlarmName (app typ iid sfx : Str) : Str :=
  app ++ '-' :: (typ ++ '-' :: (iid ++ '-' :: sfx))

/-- The per-instance name stem used on the terminate path
(cw_alarm.py line 83). -/
def pfx3 (app typ iid : Str) : Str :=
  app ++ '-' :: (typ ++ '-' :: iid)

/-- The InstanceId decoding of default_alarms.py lines 61-62:
split the alarm name on hyphens, take the pieces from index 2 up to but not
including the last one, and re-join them with hyphens. -/
def decodeInstanceId (alarmName : Str) : Str :=
  joinHyp (((splitHyp alarmName).drop 2).dropLast)

/-- Python s.startswith(stem), the matching rule of the AlarmNamePrefix
argument of describe_alarms. First argument is the stem, second the
tested string. -/
def strStartsWith : Str → Str → Bool
  | [], _ => true
  | _ :: _, [] => false
  | p :: ps, c :: cs => if p = c then strStartsWith ps cs else false

/- ## Data model shared by both handlers. -/

/-- An existing CloudWatch metric alarm as returned by describe_alarms;
the handlers read only its AlarmName and MetricName. -/
structure MetricAlarm where
  AlarmName : Str
  MetricName : Str
deriving DecidableEq

/-- The exact parameter set of a put_metric_alarm call. The three Option
fields are present in launch-path puts (cw_alarm.py lines 53-66) and absent
from the definition-change reconciler's puts (default_alarms.py lines
115-130 and 146-161). Numeric parameters are carried as the numeral
strings taken from the store: the float()/int() conversions the code
applies are value-preserving on well-formed numerals and no claim depends
on numeric semantics. -/
structure PutParams where
  AlarmName : Str
  MetricName : Str
  Namespace : Str
  Dimensions : List (Str × Str)
  Threshold : Str
  Period : Str
  EvaluationPeriods : Str
  ComparisonOperator : Str
  Statistic : Str
  ActionsEnabled : Option Bool
  AlarmActions : Option (List Str)
  AlarmDescription : Option Str
deriving DecidableEq

/-- Uncaught Python exceptions relevant to the embedded code paths. -/
inductive PyErr where
  | keyError
  | typeError
  | clientError
deriving DecidableEq

/- ## Definition-change reconciler: default_alarms.py. -/

/-- An alarm definition from a DynamoDB stream NewImage, with the six
fields default_alarms.py reads out of alarm_def['M'] (all string-typed,
matching the 'S' attribute values used throughout). -/
structure AlarmDef where
  MetricName : Str
  EvaluationPeriods : Str
  ComparisonOperator : Str
  Statistic : Str
  Threshold : Str
  Period : Str
deriving DecidableEq

/-- A CloudWatch call attempted by the definition-change reconciler. -/
inductive CwOp where
  | put (p : PutParams)
  | del (names : List Str)
deriving DecidableEq

def CwOp.isDel : CwOp → Bool
  | put _ => false
  | del _ => true

/-- default_alarms.py get_new_alarm_def (lines 88-92): first definition
whose MetricName equals the requested metric name. -/
def get_new_alarm_def (metricName : Str) : List (Str × AlarmDef) → Option AlarmDef
  | [] => none
  | (_, d) :: rest =>
    if d.MetricName = metricName then some d else get_new_alarm_def metricName rest

/-- The put parameters built by update_alarm (lines 102-130) and
create_alarm (lines 133-161) of default_alarms.py: both rebuild the alarm
name as name-type-instanceId-MetricName and omit ActionsEnabled,
AlarmActions and AlarmDescription. -/
def mkDdbPut (name typ iid : Str) (d : AlarmDef) : PutParams :=
  { AlarmName := encodeAlarmName name typ iid d.MetricName
    MetricName := d.MetricName
    Namespace := chars "AWS/EC2"
    Dimensions := [(chars "InstanceId", iid)]
    Threshold := d.Threshold
    Period := d.Period
    EvaluationPeriods := d.EvaluationPeriods
    ComparisonOperator := d.ComparisonOperator
    Statistic := d.Statistic
    ActionsEnabled := none
    AlarmActions := none
    AlarmDescription := none }

/-- The inner loop of handle_cloudwatch_alarms (lines 76-79): for each new
metric name not occurring among the metric names of the existing alarms,
create_alarm is called for the instance decoded from the current existing
alarm. create_alarm has no try/except, so a ClientError from
put_metric_alarm (the fail oracle) propagates; get_new_alarm_def returning
None would make create_alarm subscript None (an uncaught TypeError).
Returns the attempted calls in order and the uncaught exception, if any. -/
def createLoop (name typ iid : Str) (newAlarms : List (Str × AlarmDef))
    (exNames : List Str) (fail : CwOp → Bool) :
    List Str → List CwOp × Option PyErr
  | [] => ([], none)
  | m :: ms =>
    if m ∈ exNames then createLoop name typ iid newAlarms exNames fail ms
    else
      match get_new_alarm_def m newAlarms with
      | none => ([], some PyErr.typeError)
      | some d =>
        let op := CwOp.put (mkDdbPut name typ iid d)
        if fail op then ([op], some PyErr.clientError)
        else
          let r := createLoop name typ iid newAlarms exNames fail ms
          (op :: r.1, r.2)

/-- One iteration of the loop over existing alarms in
handle_cloudwatch_alarms (lines 56-79): decode the instance id from the
alarm name; if the alarm's MetricName is among the new metric names call
update_alarm (no try/except: a failing put aborts), otherwise call
delete_alarm (whose try/except swallows failures); then run the
creation loop over all new metric names. -/
def processOne (name typ : Str) (newMetricNames : List Str)
    (newAlarms : List (Str × AlarmDef)) (exNames : List Str)
    (fail : CwOp → Bool) (e : MetricAlarm) : List CwOp × Option PyErr :=
  let iid := decodeInstanceId e.AlarmName
  if e.MetricName ∈ newMetricNames then
    match get_new_alarm_def e.MetricName newAlarms with
    | none => ([], some PyErr.typeError)
    | some d =>
      let op := CwOp.put (mkDdbPut name typ iid d)
      if fail op then ([op], some PyErr.clientError)
      else
        let r := createLoop name typ iid newAlarms exNames fail newMetricNames
        (op :: r.1, r.2)
  else
    let op := CwOp.del [e.AlarmName]
    let r := createLoop name typ iid newAlarms exNames fail newMetricNames
    (op :: r.1, r.2)

/-- The loop over existing alarms: an uncaught exception in one iteration
aborts the remaining iterations. -/
def runAlarms (name typ : Str) (newMetricNames : List Str)
    (newAlarms : List (Str × AlarmDef)) (exNames : List Str)
    (fail : CwOp → Bool) : List MetricAlarm → List CwOp × Option PyErr
  | [] => ([], none)
  | e :: rest =>
    let r := processOne name typ newMetricNames newAlarms exNames fail e
    match r.2 with
    | some err => (r.1, some err)
    | none =>
      let r2 := runAlarms name typ newMetricNames newAlarms exNames fail rest
      (r.1 ++ r2.1, r2.2)

/-- Processing of one DynamoDB stream record by handle_cloudwatch_alarms
(default_alarms.py lines 46-79), given the record's Name, Type and Alarms
map and the existing alarms returned by describe_alarms for the Name-Type
name stem. new_metric_names and existing_metric_names are the metric names
of all new definitions and of all existing alarms respectively (the latter
is computed from the full describe_alarms result, across every instance,
not per instance). -/
def handle_cloudwatch_record (name typ : Str) (newAlarms : List (Str × AlarmDef))
    (existing : List MetricAlarm) (fail : CwOp → Bool) :
    List CwOp × Option PyErr :=
  runAlarms name typ (newAlarms.map (fun a => a.2.MetricName)) newAlarms
    (existing.map (fun a => a.MetricName)) fail existing

/-- The all-successful oracle: no monitoring-service call raises. -/
def noFail : CwOp → Bool := fun _ => false

/- ## Pure characterization of the reconciler trace (for the amended
claims): what the reconciler does when no call fails. -/

/-- Concatenation of the lists produced from each element. -/
def catMap {α β : Type} (f : α → List β) : List α → List β
  | [] => []
  | a :: l => f a ++ catMap f l

/-- Create calls issued while handling one existing alarm: one put per new
metric name absent from the metric names of ALL existing alarms. -/
def createOpsFor (name typ iid : Str) (newAlarms : List (Str × AlarmDef))
    (exNames : List Str) (nm : List Str) : List CwOp :=
  nm.filterMap (fun m =>
    if m ∈ exNames then none
    else (get_new_alarm_def m newAlarms).map
      (fun d => CwOp.put (mkDdbPut name typ iid d)))

/-- All calls issued while handling one existing alarm: the update put or
the delete, followed by the create calls. -/
def perAlarmOps (name typ : Str) (nm : List Str)
    (newAlarms : List (Str × AlarmDef)) (exNames : List Str)
    (e : MetricAlarm) : List CwOp :=
  (if e.MetricName ∈ nm then
    match get_new_alarm_def e.MetricName newAlarms with
    | none => []
    | some d => [CwOp.put (mkDdbPut name typ (decodeInstanceId e.AlarmName) d)]
   else [CwOp.del [e.AlarmName]])
  ++ createOpsFor name typ (decodeInstanceId e.AlarmName) newAlarms exNames nm

/-- Property of a reconciler call: if it is a put, it carries no
ActionsEnabled, no AlarmActions and no AlarmDescription. -/
def ddbPlainOp : CwOp → Prop
  | CwOp.put p =>
      p.ActionsEnabled = none ∧ p.AlarmActions = none ∧ p.AlarmDescription = none
  | CwOp.del _ => True

/- ## Lifecycle reconciler: cw_alarm.py. -/

/-- Python dict lookup on an association list (first match). The code
builds instance_tags with a dict comprehension, under which a duplicated
tag key would resolve to its last occurrence; no claim involves duplicate
keys, so the association lists here are read first-match. -/
def pyGet (k : Str) : List (Str × Str) → Option Str
  | [] => none
  | (k2, v) :: rest => if k2 = k then some v else pyGet k rest

/-- An alarm-definition record of the DynamoDB item read on the launch
path, as a field dictionary (a key may be missing). -/
abbrev DdbItem := List (Str × Str)

/-- The fields cw_alarm.py reads from event['detail'] (lines 98-101);
claims assume well-formed lifecycle events, so these are given directly. -/
structure LifecycleDetail where
  EC2InstanceId : Str
  LifecycleHookName : Str
  AutoScalingGroupName : Str
  LifecycleTransition : Str
deriving DecidableEq

/-- An external call made by the lifecycle handler: the DynamoDB
batch_get_item, the CloudWatch put/describe/delete, and the autoscaling
complete_lifecycle_action. Reading the instance tags happens before any of
these and is not part of the trace. -/
inductive ExtCall where
  | ddbGet (name typ : Str)
  | cwPut (p : PutParams)
  | cwDescribe (stem : Str)
  | cwDelete (names : List Str)
  | asgComplete (hook grp result iid : Str)
deriving DecidableEq

/-- How the lifecycle-handler invocation ends: normal return of the
200 response, sys.exit(0) (untagged skip), sys.exit(-1) (definition
lookup failure), or an uncaught Python exception. -/
inductive LhOutcome where
  | ok
  | exitZero
  | exitNeg
  | pyError (e : PyErr)
deriving DecidableEq

/-- The trace of external calls of one invocation together with how the
invocation ended. -/
structure LhResult where
  calls : List ExtCall
  outcome : LhOutcome
deriving DecidableEq

/-- The alarm names the terminate path computes: get_alarm_name
(cw_alarm.py lines 78-87) lists the alarms whose name starts with the
app-type-instance stem and collects their names. -/
def terminateDelNames (app typ iid : Str) (cwAlarms : List MetricAlarm) : List Str :=
  (cwAlarms.filter (fun a => strStartsWith (pfx3 app typ iid) a.AlarmName)).map
    (fun a => a.AlarmName)

/-- The eight field reads of the launch-path loop body (cw_alarm.py lines
129 and 139-146), in source order: MetricName, AlarmName,
AlarmDescription, ComparisonOperator, Period, Statistic, Threshold,
ActionsEnabled. Each field is read by direct dict subscription, so a
missing field means an uncaught KeyError (the None result here). -/
def readLaunchFields (item : DdbItem) :
    Option (Str × Str × Str × Str × Str × Str × Str × Str) :=
  match pyGet (chars "MetricName") item with
  | none => none
  | some metricName =>
    match pyGet (chars "AlarmName") item with
    | none => none
    | some alarmSfx =>
      match pyGet (chars "AlarmDescription") item with
      | none => none
      | some desc =>
        match pyGet (chars "ComparisonOperator") item with
        | none => none
        | some comp =>
          match pyGet (chars "Period") item with
          | none => none
          | some period =>
            match pyGet (chars "Statistic") item with
            | none => none
            | some stat =>
              match pyGet (chars "Threshold") item with
              | none => none
              | some thr =>
                match pyGet (chars "ActionsEnabled") item with
                | none => none
                | some act =>
                  some (metricName, alarmSfx, desc, comp, period, stat, thr, act)

/-- The put parameters assembled by the launch path (cw_alarm.py lines
128-147 and create_alarm lines 45-68): name suffix taken from the
definition's AlarmName field, EvaluationPeriods fixed at 1, ActionsEnabled
true exactly when the stored field equals the string True, AlarmActions
set to the configured SNS topic, AlarmDescription carried over. -/
def mkLaunchPut (app typ iid sns metricName alarmSfx desc comp period stat thr act : Str) :
    PutParams :=
  { AlarmName := encodeAlarmName app typ iid alarmSfx
    MetricName := metricName
    Namespace := chars "AWS/EC2"
    Dimensions := [(chars "InstanceId", iid)]
    Threshold := thr
    Period := period
    EvaluationPeriods := chars "1"
    ComparisonOperator := comp
    Statistic := stat
    ActionsEnabled := some (decide (act = chars "True"))
    AlarmActions := some [sns]
    AlarmDescription := some desc }

/-- The launch-path loop over the alarm definitions (cw_alarm.py lines
128-147). A missing field raises an uncaught KeyError, aborting the loop;
the put itself is issued inside create_alarm's try/except, so a
ClientError from the monitoring service is logged and the loop continues -
the trace and control flow do not depend on put failures. -/
def launchLoop (app typ iid sns : Str) :
    List (Str × DdbItem) → List ExtCall × Option PyErr
  | [] => ([], none)
  | (_, item) :: rest =>
    match readLaunchFields item with
    | none => ([], some PyErr.keyError)
    | some (metricName, alarmSfx, desc, comp, period, stat, thr, act) =>
      let p := mkLaunchPut app typ iid sns metricName alarmSfx desc comp
        period stat thr act
      let r := launchLoop app typ iid sns rest
      (ExtCall.cwPut p :: r.1, r.2)

/-- cw_alarm.py lambda_handler (lines 95-173). Arguments: the event
detail; the instance tags; the result of the DynamoDB definition read
(None models any failure of the lookup or of extracting
[table][0]['Alarms'], all caught by the try at lines 120-125); the alarm
population of the monitoring service; the SNS topic; and the ClientError
oracle for delete_alarms calls (put failures are swallowed by
create_alarm's try/except, and the describe, DynamoDB and completion
collaborator calls are modelled as succeeding - no claim concerns their
failure). -/
def lambda_handler_cw (detail : LifecycleDetail)
    (instanceTags : List (Str × Str))
    (ddbResult : Option (List (Str × DdbItem)))
    (cwAlarms : List MetricAlarm) (snsTopicArn : Str)
    (fail : ExtCall → Bool) : LhResult :=
  match pyGet (chars "application-name") instanceTags with
  | none => ⟨[], LhOutcome.pyError PyErr.keyError⟩
  | some appName =>
    match pyGet (chars "application-type") instanceTags with
    | none => ⟨[], LhOutcome.pyError PyErr.keyError⟩
    | some appType =>
      if (pyGet (chars "create-cloudwatch-alarm") instanceTags).isSome then
        if detail.LifecycleTransition = chars "autoscaling:EC2_INSTANCE_LAUNCHING" then
          match ddbResult with
          | none => ⟨[ExtCall.ddbGet appName appType], LhOutcome.exitNeg⟩
          | some alarms =>
            let r := launchLoop appName appType detail.EC2InstanceId snsTopicArn alarms
            match r.2 with
            | some e => ⟨ExtCall.ddbGet appName appType :: r.1, LhOutcome.pyError e⟩
            | none =>
              ⟨ExtCall.ddbGet appName appType :: r.1
                ++ [ExtCall.asgComplete detail.LifecycleHookName
                      detail.AutoScalingGroupName (chars "CONTINUE")
                      detail.EC2InstanceId],
               LhOutcome.ok⟩
        else
          if detail.LifecycleTransition = chars "autoscaling:EC2_INSTANCE_TERMINATING" then
            let stem := pfx3 appName appType detail.EC2InstanceId
            let names := terminateDelNames appName appType detail.EC2InstanceId cwAlarms
            if fail (ExtCall.cwDelete names) then
              ⟨[ExtCall.cwDescribe stem, ExtCall.cwDelete names],
               LhOutcome.pyError PyErr.clientError⟩
            else
              ⟨[ExtCall.cwDescribe stem, ExtCall.cwDelete names,
                ExtCall.asgComplete detail.LifecycleHookName
                  detail.AutoScalingGroupName (chars "CONTINUE")
                  detail.EC2InstanceId],
               LhOutcome.ok⟩
          else
            ⟨[ExtCall.asgComplete detail.LifecycleHookName
                detail.AutoScalingGroupName (chars "CONTINUE")
                detail.EC2InstanceId],
             LhOutcome.ok⟩
      else ⟨[], LhOutcome.exitZero⟩

/-- All eight fields the launch loop reads are present in the item. -/
abbrev itemComplete (item : DdbItem) : Prop :=
  (pyGet (chars "MetricName") item).isSome ∧
  (pyGet (chars "AlarmName") item).isSome ∧
  (pyGet (chars "AlarmDescription") item).isSome ∧
  (pyGet (chars "ComparisonOperator") item).isSome ∧
  (pyGet (chars "Period") item).isSome ∧
  (pyGet (chars "Statistic") item).isSome ∧
  (pyGet (chars "Threshold") item).isSome ∧
  (pyGet (chars "ActionsEnabled") item).isSome

/-- The all-successful oracle for the lifecycle handler. -/
def noFailE : ExtCall → Bool := fun _ => false

/- ## Concrete example data used by counterexamples and witnesses. -/

/-- A CPUUtilization alarm definition. -/
def dCpu : AlarmDef :=
  ⟨chars "CPUUtilization", chars "1", chars "GreaterThanThreshold",
   chars "Average", chars "80", chars "300"⟩

/-- A MemoryUtilization alarm definition. -/
def dMem : AlarmDef :=
  ⟨chars "MemoryUtilization", chars "1", chars "GreaterThanThreshold",
   chars "Average", chars "75", chars "300"⟩

/-- A complete launch-path definition record, carrying every field the
launch loop reads, including the AlarmName suffix field. -/
def cpuItem : DdbItem :=
  [(chars "MetricName", chars "CPUUtilization"),
   (chars "AlarmName", chars "CPUUtilization"),
   (chars "AlarmDescription", chars "CPU utilization alarm"),
   (chars "ComparisonOperator", chars "GreaterThanThreshold"),
   (chars "Period", chars "300"),
   (chars "Statistic", chars "Average"),
   (chars "Threshold", chars "80"),
   (chars "ActionsEnabled", chars "True")]

/-- The definition record exactly as written in the claim-C5 scenario:
MetricName, Threshold, Period, Statistic, ComparisonOperator and
ActionsEnabled only - no AlarmName and no AlarmDescription field. -/
def cpuItemClaim : DdbItem :=
  [(chars "MetricName", chars "CPUUtilization"),
   (chars "Threshold", chars "80"),
   (chars "Period", chars "300"),
   (chars "Statistic", chars "Average"),
   (chars "ComparisonOperator", chars "GreaterThanThreshold"),
   (chars "ActionsEnabled", chars "True")]

/-- Instance tags carrying the applicability tag and the app identity
web/prod. -/
def webProdTags : List (Str × Str) :=
  [(chars "application-name", chars "web"),
   (chars "application-type", chars "prod"),
   (chars "create-cloudwatch-alarm", chars "true")]

/-- The put the launch path issues for instance i-123 of web/prod given
the cpuItem definition record and the sns-topic action target. -/
def launchPutWebProd : PutParams :=
  { AlarmName := chars "web-prod-i-123-CPUUtilization"
    MetricName := chars "CPUUtilization"
    Namespace := chars "AWS/EC2"
    Dimensions := [(chars "InstanceId", chars "i-123")]
    Threshold := chars "80"
    Period := chars "300"
    EvaluationPeriods := chars "1"
    ComparisonOperator := chars "GreaterThanThreshold"
    Statistic := chars "Average"
    ActionsEnabled := some true
    AlarmActions := some [chars "sns-topic"]
    AlarmDescription := some (chars "CPU utilization alarm") }

/- ## Theorems. -/

theorem splitHyp_ne_nil (s : Str) : splitHyp s ≠ [] := by
  induction s with
  | nil => simp [splitHyp]
  | cons c rest ih =>
    by_cases hc : c = '-'
    · simp [splitHyp, hc]
    · simp only [splitHyp, hc, if_false]
      cases h : splitHyp rest with
      | nil => simp [consHead]
      | cons p ps => simp [consHead]

theorem consHead_append (c : Char) (l m : List Str) (h : l ≠ []) :
    consHead c (l ++ m) = consHead c l ++ m := by
  cases l with
  | nil => exact absurd rfl h
  | cons p ps => simp [consHead]

theorem splitHyp_append (x y : Str) :
    splitHyp (x ++ '-' :: y) = splitHyp x ++ splitHyp y := by
  induction x with
  | nil => simp [splitHyp]
  | cons c xs ih =>
    by_cases hc : c = '-'
    · simp [splitHyp, hc, ih]
    · simp [splitHyp, hc, ih, consHead_append c _ _ (splitHyp_ne_nil xs)]

theorem splitHyp_no_hyphen (s : Str) (h : '-' ∉ s) : splitHyp s = [s] := by
  induction s with
  | nil => simp [splitHyp]
  | cons c rest ih =>
    simp only [List.mem_cons, not_or] at h
    have hc : c ≠ '-' := fun e => h.1 e.symm
    simp [splitHyp, hc, ih h.2, consHead]

theorem joinHyp_splitHyp (s : Str) : joinHyp (splitHyp s) = s := by
  induction s with
  | nil => simp [splitHyp, joinHyp]
  | cons c rest ih =>
    by_cases hc : c = '-'
    · subst hc
      simp only [splitHyp, if_pos rfl]
      cases h : splitHyp rest with
      | nil => exact absurd h (splitHyp_ne_nil rest)
      | cons q ps =>
        rw [h] at ih
        simp [joinHyp, ih]
    · simp only [splitHyp, hc, if_false]
      cases h : splitHyp rest with
      | nil => exact absurd h (splitHyp_ne_nil rest)
      | cons q ps =>
        rw [h] at ih
        cases ps with
        | nil =>
          simp only [joinHyp] at ih
          simp [consHead, joinHyp, ih]
        | cons r rs =>
          simp only [joinHyp] at ih
          simp [consHead, joinHyp, ih]

theorem dropLast_app_one {α : Type} (l : List α) (a : α) :
    (l ++ [a]).dropLast = l := by
  induction l with
  | nil => rfl
  | cons x xs ih =>
    cases xs with
    | nil => rfl
    | cons y ys => simp [List.dropLast, ih]

/-- Helper: the naming round-trip, shared by the claims that need to
decode an encoded name. -/
theorem decode_encode (app typ iid sfx : Str)
    (ha : '-' ∉ app) (ht : '-' ∉ typ) (hs : '-' ∉ sfx) :
    decodeInstanceId (encodeAlarmName app typ iid sfx) = iid := by
  unfold decodeInstanceId encodeAlarmName
  rw [splitHyp_append app, splitHyp_append typ, splitHyp_append iid,
      splitHyp_no_hyphen app ha, splitHyp_no_hyphen typ ht,
      splitHyp_no_hyphen sfx hs]
  have hshape : ([app] ++ ([typ] ++ (splitHyp iid ++ [sfx])))
      = app :: typ :: (splitHyp iid ++ [sfx]) := by simp
  rw [hshape]
  show joinHyp ((splitHyp iid ++ [sfx]).dropLast) = iid
  rw [dropLast_app_one, joinHyp_splitHyp]

/-- Claim C4: naming round-trip. For every app, typ, instanceId and suffix
where app, typ and suffix contain no hyphen (instanceId may contain
hyphens), decoding the InstanceId from the encoded alarm name
app-typ-instanceId-suffix returns exactly instanceId. -/
theorem C4_naming_round_trip (app typ iid sfx : Str)
    (ha : '-' ∉ app) (ht : '-' ∉ typ) (hs : '-' ∉ sfx) :
    decodeInstanceId (encodeAlarmName app typ iid sfx) = iid :=
  decode_encode app typ iid sfx ha ht hs

/-- Claim C4 witness: the round-trip at the concrete name
web-prod-i-123-CPUUtilization recovers i-123. -/
theorem C4_witness :
    decodeInstanceId
      (encodeAlarmName (chars "web") (chars "prod") (chars "i-123")
        (chars "CPUUtilization")) = chars "i-123" :=
  C4_naming_round_trip (chars "web") (chars "prod") (chars "i-123")
    (chars "CPUUtilization") (by decide) (by decide) (by decide)

/- ## Structural lemmas for the definition-change reconciler. -/

theorem mem_catMap {α β : Type} (f : α → List β) (l : List α) (b : β) :
    b ∈ catMap f l ↔ ∃ a ∈ l, b ∈ f a := by
  induction l with
  | nil => simp [catMap]
  | cons a l ih => simp [catMap, List.mem_append, ih]

/-- If a metric name occurs among the new definitions' metric names,
get_new_alarm_def finds a definition carrying exactly that metric name. -/
theorem get_def_found (m : Str) (na : List (Str × AlarmDef))
    (h : m ∈ na.map (fun a => a.2.MetricName)) :
    ∃ d, get_new_alarm_def m na = some d ∧ d.MetricName = m := by
  induction na with
  | nil => simp at h
  | cons a rest ih =>
    obtain ⟨k, d⟩ := a
    by_cases hd : d.MetricName = m
    · exact ⟨d, by simp [get_new_alarm_def, hd], hd⟩
    · simp only [List.map_cons, List.mem_cons] at h
      rcases h with h | h
      · exact absurd h.symm hd
      · obtain ⟨d2, hg, hm⟩ := ih h
        exact ⟨d2, by simp [get_new_alarm_def, hd, hg], hm⟩

theorem get_def_mem (m : Str) (na : List (Str × AlarmDef)) (d : AlarmDef)
    (h : get_new_alarm_def m na = some d) :
    m ∈ na.map (fun a => a.2.MetricName) ∧ d.MetricName = m := by
  induction na with
  | nil => simp [get_new_alarm_def] at h
  | cons a rest ih =>
    obtain ⟨k, d2⟩ := a
    by_cases hd : d2.MetricName = m
    · simp only [get_new_alarm_def, hd, if_pos, Option.some.injEq] at h
      subst h
      exact ⟨by simp only [List.map_cons, List.mem_cons]; exact Or.inl hd.symm, hd⟩
    · simp only [get_new_alarm_def, hd, if_false] at h
      obtain ⟨h1, h2⟩ := ih h
      exact ⟨by simp [h1], h2⟩

/-- If no put fails, the creation loop performs exactly the pure
createOpsFor calls and raises nothing. -/
theorem createLoop_ok (name typ iid : Str) (na : List (Str × AlarmDef))
    (exNames : List Str) (fail : CwOp → Bool)
    (hf : ∀ p, fail (CwOp.put p) = false) :
    ∀ ms, (∀ m ∈ ms, m ∈ na.map (fun a => a.2.MetricName)) →
      createLoop name typ iid na exNames fail ms
        = (createOpsFor name typ iid na exNames ms, none) := by
  intro ms
  induction ms with
  | nil => intro _; simp [createLoop, createOpsFor]
  | cons m ms ih =>
    intro hmem
    have hm : m ∈ na.map (fun a => a.2.MetricName) := hmem m (by simp)
    have hms : ∀ x ∈ ms, x ∈ na.map (fun a => a.2.MetricName) :=
      fun x hx => hmem x (by simp [hx])
    obtain ⟨d, hget, _⟩ := get_def_found m na hm
    by_cases hx : m ∈ exNames
    · simp [createLoop, createOpsFor, hx, List.filterMap_cons, ih hms]
    · simp [createLoop, createOpsFor, hx, hget, hf, List.filterMap_cons, ih hms]

/-- If no put fails, one existing-alarm iteration performs exactly the
pure perAlarmOps calls and raises nothing. -/
theorem processOne_ok (name typ : Str) (na : List (Str × AlarmDef))
    (exNames : List Str) (fail : CwOp → Bool) (e : MetricAlarm)
    (hf : ∀ p, fail (CwOp.put p) = false) :
    processOne name typ (na.map (fun a => a.2.MetricName)) na exNames fail e
      = (perAlarmOps name typ (na.map (fun a => a.2.MetricName)) na exNames e,
         none) := by
  have hcl := createLoop_ok name typ (decodeInstanceId e.AlarmName) na exNames
    fail hf (na.map (fun a => a.2.MetricName)) (fun x hx => hx)
  by_cases hm : e.MetricName ∈ na.map (fun a => a.2.MetricName)
  · obtain ⟨d, hget, _⟩ := get_def_found e.MetricName na hm
    simp [processOne, perAlarmOps, hm, hget, hf, hcl]
  · simp [processOne, perAlarmOps, hm, hcl]

/-- If no put fails, the loop over existing alarms performs exactly the
concatenation of the per-alarm calls and raises nothing. -/
theorem runAlarms_ok (name typ : Str) (na : List (Str × AlarmDef))
    (exNames : List Str) (fail : CwOp → Bool)
    (hf : ∀ p, fail (CwOp.put p) = false) :
    ∀ l, runAlarms name typ (na.map (fun a => a.2.MetricName)) na exNames fail l
      = (catMap (perAlarmOps name typ (na.map (fun a => a.2.MetricName)) na
          exNames) l, none) := by
  intro l
  induction l with
  | nil => simp [runAlarms, catMap]
  | cons e rest ih =>
    simp [runAlarms, processOne_ok name typ na exNames fail e hf, ih, catMap]

/-- If no put fails, processing a stream record performs exactly the
concatenation of the per-alarm calls and raises nothing. -/
theorem handle_record_ok (name typ : Str) (na : List (Str × AlarmDef))
    (ex : List MetricAlarm) (fail : CwOp → Bool)
    (hf : ∀ p, fail (CwOp.put p) = false) :
    handle_cloudwatch_record name typ na ex fail
      = (catMap (perAlarmOps name typ (na.map (fun a => a.2.MetricName)) na
          (ex.map (fun a => a.MetricName))) ex, none) := by
  unfold handle_cloudwatch_record
  exact runAlarms_ok name typ na (ex.map (fun a => a.MetricName)) fail hf ex

/-- Claim C1 (amended): the definition-change reconciler does not group
existing alarms per instance. It iterates over the existing alarms
individually (decoding the InstanceId from each name); per existing alarm
it issues the update put or the delete, and then one create put for each
new definition whose MetricName does not appear among the MetricNames of
ALL existing alarms of the application/type (across every instance), for
the instance decoded from that alarm. Hence an instance missing a metric
that some other instance carries never gets it created, and a metric
missing from every instance is created once per existing alarm. The
theorem characterizes the full call trace under a non-failing service. -/
theorem C1_amended_trace (name typ : Str) (na : List (Str × AlarmDef))
    (ex : List MetricAlarm) :
    handle_cloudwatch_record name typ na ex noFail
      = (catMap (perAlarmOps name typ (na.map (fun a => a.2.MetricName)) na
          (ex.map (fun a => a.MetricName))) ex, none) :=
  handle_record_ok name typ na ex noFail (fun _ => rfl)

/-- Claim C1 counterexample: instance i-1 carries only a CPUUtilization
alarm and instance i-2 only a MemoryUtilization alarm; the new definitions
contain both metrics. The claim demands a MemoryUtilization creation for
i-1 (and a CPUUtilization creation for i-2); the code issues exactly the
two in-place update puts and no create at all, because each metric occurs
among the existing alarms of SOME instance. -/
theorem C1_counterexample :
    handle_cloudwatch_record (chars "web") (chars "prod")
        [(chars "cpu", dCpu), (chars "mem", dMem)]
        [⟨chars "web-prod-i-1-CPUUtilization", chars "CPUUtilization"⟩,
         ⟨chars "web-prod-i-2-MemoryUtilization", chars "MemoryUtilization"⟩]
        noFail
      = ([CwOp.put (mkDdbPut (chars "web") (chars "prod") (chars "i-1") dCpu),
          CwOp.put (mkDdbPut (chars "web") (chars "prod") (chars "i-2") dMem)],
         none)
    ∧ CwOp.put (mkDdbPut (chars "web") (chars "prod") (chars "i-1") dMem)
        ∉ (handle_cloudwatch_record (chars "web") (chars "prod")
            [(chars "cpu", dCpu), (chars "mem", dMem)]
            [⟨chars "web-prod-i-1-CPUUtilization", chars "CPUUtilization"⟩,
             ⟨chars "web-prod-i-2-MemoryUtilization", chars "MemoryUtilization"⟩]
            noFail).1 := by
  constructor
  · decide
  · decide

/-- Claim C2 (amended): for an existing alarm whose MetricName is present
in the new definitions, the reconciler issues the put under the REBUILT
name app-type-instanceId-MetricName (instanceId decoded from the existing
name), not under the existing AlarmName: when the suffix the alarm was
created with differs from its MetricName, the name passed to the put
differs from the existing alarm's name. -/
theorem C2_amended_update_name (name typ iid sfx : Str)
    (na : List (Str × AlarmDef)) (ex : List MetricAlarm)
    (e : MetricAlarm) (d : AlarmDef)
    (he : e ∈ ex)
    (hname : e.AlarmName = encodeAlarmName name typ iid sfx)
    (ha : '-' ∉ name) (ht : '-' ∉ typ) (hs : '-' ∉ sfx)
    (hget : get_new_alarm_def e.MetricName na = some d)
    (hsfx : sfx ≠ d.MetricName) :
    CwOp.put (mkDdbPut name typ iid d)
        ∈ (handle_cloudwatch_record name typ na ex noFail).1
    ∧ (mkDdbPut name typ iid d).AlarmName ≠ e.AlarmName := by
  have hmem : e.MetricName ∈ na.map (fun a => a.2.MetricName) :=
    (get_def_mem e.MetricName na d hget).1
  have hdec : decodeInstanceId e.AlarmName = iid := by
    rw [hname]; exact decode_encode name typ iid sfx ha ht hs
  constructor
  · rw [handle_record_ok name typ na ex noFail (fun _ => rfl)]
    show CwOp.put (mkDdbPut name typ iid d)
      ∈ catMap (perAlarmOps name typ (na.map (fun a => a.2.MetricName)) na
          (ex.map (fun a => a.MetricName))) ex
    rw [mem_catMap]
    refine ⟨e, he, ?_⟩
    unfold perAlarmOps
    rw [if_pos hmem, hget, hdec]
    simp
  · rw [hname]
    intro hcontra
    apply hsfx
    have heq : encodeAlarmName name typ iid d.MetricName
        = encodeAlarmName name typ iid sfx := hcontra
    unfold encodeAlarmName at heq
    have h1 := List.append_cancel_left heq
    injection h1 with _ h2
    have h3 := List.append_cancel_left h2
    injection h3 with _ h4
    have h5 := List.append_cancel_left h4
    injection h5 with _ h6
    exact h6.symm

/-- Claim C2 counterexample: the existing alarm web-prod-i-1-cpuAlarm has
MetricName CPUUtilization, present in the new definitions. The claim says
the put is issued under the existing name web-prod-i-1-cpuAlarm; the code
issues exactly one put, named web-prod-i-1-CPUUtilization, which differs
from the existing name. -/
theorem C2_counterexample :
    (handle_cloudwatch_record (chars "web") (chars "prod")
        [(chars "cpu", dCpu)]
        [⟨chars "web-prod-i-1-cpuAlarm", chars "CPUUtilization"⟩]
        noFail).1
      = [CwOp.put (mkDdbPut (chars "web") (chars "prod") (chars "i-1") dCpu)]
    ∧ (mkDdbPut (chars "web") (chars "prod") (chars "i-1") dCpu).AlarmName
        = chars "web-prod-i-1-CPUUtilization"
    ∧ (mkDdbPut (chars "web") (chars "prod") (chars "i-1") dCpu).AlarmName
        ≠ chars "web-prod-i-1-cpuAlarm" := by
  refine ⟨by decide, by decide, by decide⟩

/-- Claim C2 witness: the amended theorem applied at the concrete
counterexample population. -/
theorem C2_amended_witness :
    CwOp.put (mkDdbPut (chars "web") (chars "prod") (chars "i-1") dCpu)
        ∈ (handle_cloudwatch_record (chars "web") (chars "prod")
            [(chars "cpu", dCpu)]
            [⟨chars "web-prod-i-1-cpuAlarm", chars "CPUUtilization"⟩]
            noFail).1
    ∧ (mkDdbPut (chars "web") (chars "prod") (chars "i-1") dCpu).AlarmName
        ≠ (MetricAlarm.mk (chars "web-prod-i-1-cpuAlarm")
            (chars "CPUUtilization")).AlarmName :=
  C2_amended_update_name (chars "web") (chars "prod") (chars "i-1")
    (chars "cpuAlarm") [(chars "cpu", dCpu)]
    [⟨chars "web-prod-i-1-cpuAlarm", chars "CPUUtilization"⟩]
    ⟨chars "web-prod-i-1-cpuAlarm", chars "CPUUtilization"⟩ dCpu
    (by decide) (by decide) (by decide) (by decide) (by decide) (by decide)
    (by decide)

/-- If every definition record carries all eight fields, the launch loop
raises nothing - regardless of put failures, which create_alarm's
try/except swallows. -/
theorem launchLoop_ok (app typ iid sns : Str) :
    ∀ items : List (Str × DdbItem), (∀ it ∈ items, itemComplete it.2) →
      (launchLoop app typ iid sns items).2 = none := by
  intro items
  induction items with
  | nil => intro _; simp [launchLoop]
  | cons a rest ih =>
    intro h
    obtain ⟨k, item⟩ := a
    obtain ⟨h1, h2, h3, h4, h5, h6, h7, h8⟩ := h (k, item) (by simp)
    rw [Option.isSome_iff_exists] at h1 h2 h3 h4 h5 h6 h7 h8
    obtain ⟨v1, hv1⟩ := h1
    obtain ⟨v2, hv2⟩ := h2
    obtain ⟨v3, hv3⟩ := h3
    obtain ⟨v4, hv4⟩ := h4
    obtain ⟨v5, hv5⟩ := h5
    obtain ⟨v6, hv6⟩ := h6
    obtain ⟨v7, hv7⟩ := h7
    obtain ⟨v8, hv8⟩ := h8
    have hrest : ∀ it ∈ rest, itemComplete it.2 :=
      fun it hit => h it (by simp [hit])
    have hread : readLaunchFields item = some (v1, v2, v3, v4, v5, v6, v7, v8) := by
      simp [readLaunchFields, hv1, hv2, hv3, hv4, hv5, hv6, hv7, hv8]
    simp [launchLoop, hread, ih hrest]

/-- Claim C3 counterexample: two instances each carry a CPUUtilization
alarm, present in the new definitions. The monitoring service raises
ClientError on the update put for instance i-1. update_alarm has no
try/except, so the exception propagates: the run ends with an uncaught
ClientError after a single attempted call, and the sibling alarm of
instance i-2 is never processed - contradicting the claim that per-alarm
ClientError is always caught and sibling alarms continue. -/
theorem C3_counterexample :
    handle_cloudwatch_record (chars "web") (chars "prod")
        [(chars "cpu", dCpu)]
        [⟨chars "web-prod-i-1-CPUUtilization", chars "CPUUtilization"⟩,
         ⟨chars "web-prod-i-2-CPUUtilization", chars "CPUUtilization"⟩]
        (fun op => decide (op =
          CwOp.put (mkDdbPut (chars "web") (chars "prod") (chars "i-1") dCpu)))
      = ([CwOp.put (mkDdbPut (chars "web") (chars "prod") (chars "i-1") dCpu)],
         some PyErr.clientError) := by
  decide

/-- Claim C3 (amended): ClientError is caught and siblings continue only
for some of the per-alarm operations. (1) In the definition-change
reconciler, if only delete calls fail (delete_alarm catches), no uncaught
exception arises. (2) On the launch path, create_alarm's try/except
swallows put failures: with well-formed definitions the workflow completes
normally whatever the ClientError oracle. (3) But the terminate-path
delete_alarms call is not wrapped: a ClientError there propagates
uncaught and the lifecycle completion is never signalled; likewise a
ClientError in the definition-change update/create put aborts the
reconciliation (the counterexample). -/
theorem C3_amended_fault_isolation :
    (∀ (name typ : Str) (na : List (Str × AlarmDef)) (ex : List MetricAlarm)
        (fail : CwOp → Bool), (∀ p, fail (CwOp.put p) = false) →
        (handle_cloudwatch_record name typ na ex fail).2 = none)
    ∧ (∀ (detail : LifecycleDetail) (tags : List (Str × Str))
        (items : List (Str × DdbItem)) (cw : List MetricAlarm) (sns : Str)
        (fail : ExtCall → Bool) (n t : Str),
        pyGet (chars "application-name") tags = some n →
        pyGet (chars "application-type") tags = some t →
        (pyGet (chars "create-cloudwatch-alarm") tags).isSome →
        detail.LifecycleTransition = chars "autoscaling:EC2_INSTANCE_LAUNCHING" →
        (∀ it ∈ items, itemComplete it.2) →
        (lambda_handler_cw detail tags (some items) cw sns fail).outcome
          = LhOutcome.ok)
    ∧ (∀ (detail : LifecycleDetail) (tags : List (Str × Str))
        (ddbRes : Option (List (Str × DdbItem))) (cw : List MetricAlarm)
        (sns : Str) (fail : ExtCall → Bool) (n t : Str),
        pyGet (chars "application-name") tags = some n →
        pyGet (chars "application-type") tags = some t →
        (pyGet (chars "create-cloudwatch-alarm") tags).isSome →
        detail.LifecycleTransition = chars "autoscaling:EC2_INSTANCE_TERMINATING" →
        fail (ExtCall.cwDelete
          (terminateDelNames n t detail.EC2InstanceId cw)) = true →
        lambda_handler_cw detail tags ddbRes cw sns fail
          = ⟨[ExtCall.cwDescribe (pfx3 n t detail.EC2InstanceId),
              ExtCall.cwDelete (terminateDelNames n t detail.EC2InstanceId cw)],
             LhOutcome.pyError PyErr.clientError⟩) := by
  refine ⟨?_, ?_, ?_⟩
  · intro name typ na ex fail hf
    rw [handle_record_ok name typ na ex fail hf]
  · intro detail tags items cw sns fail n t h1 h2 h3 h4 hcomp
    have hl := launchLoop_ok n t detail.EC2InstanceId sns items hcomp
    simp [lambda_handler_cw, h1, h2, h3, h4, hl]
  · intro detail tags ddbRes cw sns fail n t h1 h2 h3 h4 hfail
    have hne : ¬ (chars "autoscaling:EC2_INSTANCE_TERMINATING"
        = chars "autoscaling:EC2_INSTANCE_LAUNCHING") := by decide
    simp [lambda_handler_cw, h1, h2, h3, h4, hne, hfail]

/-- Claim C3 witness: the three parts of the amended theorem applied at
concrete inputs. -/
theorem C3_amended_witness :
    (handle_cloudwatch_record (chars "web") (chars "prod")
        [(chars "cpu", dCpu)]
        [⟨chars "web-prod-i-1-CPUUtilization", chars "CPUUtilization"⟩]
        noFail).2 = none
    ∧ (lambda_handler_cw
        ⟨chars "i-123", chars "hook", chars "asg",
         chars "autoscaling:EC2_INSTANCE_LAUNCHING"⟩
        webProdTags (some [(chars "cpu", cpuItem)]) [] (chars "sns-topic")
        (fun _ => true)).outcome = LhOutcome.ok
    ∧ lambda_handler_cw
        ⟨chars "i-123", chars "hook", chars "asg",
         chars "autoscaling:EC2_INSTANCE_TERMINATING"⟩
        webProdTags none [] (chars "sns-topic") (fun _ => true)
      = ⟨[ExtCall.cwDescribe
            (pfx3 (chars "web") (chars "prod") (chars "i-123")),
          ExtCall.cwDelete (terminateDelNames (chars "web") (chars "prod")
            (chars "i-123") [])],
         LhOutcome.pyError PyErr.clientError⟩ :=
  ⟨C3_amended_fault_isolation.1 (chars "web") (chars "prod")
      [(chars "cpu", dCpu)]
      [⟨chars "web-prod-i-1-CPUUtilization", chars "CPUUtilization"⟩]
      noFail (fun _ => rfl),
   C3_amended_fault_isolation.2.1
      ⟨chars "i-123", chars "hook", chars "asg",
       chars "autoscaling:EC2_INSTANCE_LAUNCHING"⟩
      webProdTags [(chars "cpu", cpuItem)] [] (chars "sns-topic")
      (fun _ => true) (chars "web") (chars "prod")
      (by decide) (by decide) (by decide) rfl (by decide),
   C3_amended_fault_isolation.2.2
      ⟨chars "i-123", chars "hook", chars "asg",
       chars "autoscaling:EC2_INSTANCE_TERMINATING"⟩
      webProdTags none [] (chars "sns-topic") (fun _ => true)
      (chars "web") (chars "prod")
      (by decide) (by decide) (by decide) rfl rfl⟩

/-- Claim C5 counterexample: on a launch event for i-123 (tags web/prod,
applicability tag present), with exactly the definition record the claim
gives - MetricName CPUUtilization, Threshold 80, Period 300, Statistic
Average, ComparisonOperator GreaterThanThreshold, ActionsEnabled true, and
nothing else - the handler reads the record's AlarmName field, which is
absent: the invocation dies with an uncaught KeyError after the definition
read, no alarm is created and no lifecycle completion is signalled. -/
theorem C5_counterexample :
    lambda_handler_cw
        ⟨chars "i-123", chars "hook", chars "asg",
         chars "autoscaling:EC2_INSTANCE_LAUNCHING"⟩
        webProdTags (some [(chars "cpu", cpuItemClaim)]) []
        (chars "sns-topic") noFailE
      = ⟨[ExtCall.ddbGet (chars "web") (chars "prod")],
         LhOutcome.pyError PyErr.keyError⟩ := by
  decide

/-- Claim C5 (amended): the definition record must additionally carry the
AlarmName and AlarmDescription fields the code subscripts (with AlarmName
equal to CPUUtilization to produce the claimed alarm name, and
ActionsEnabled stored as the string True). Then the launch event for
i-123 tagged web/prod performs exactly one put: the alarm named
web-prod-i-123-CPUUtilization with threshold 80, period 300, statistic
Average, comparison GreaterThanThreshold and actions enabled (routed to
the configured SNS topic), followed by lifecycle completion with
CONTINUE. -/
theorem C5_amended_launch_scenario :
    lambda_handler_cw
        ⟨chars "i-123", chars "hook", chars "asg",
         chars "autoscaling:EC2_INSTANCE_LAUNCHING"⟩
        webProdTags (some [(chars "cpu", cpuItem)]) []
        (chars "sns-topic") noFailE
      = ⟨[ExtCall.ddbGet (chars "web") (chars "prod"),
          ExtCall.cwPut launchPutWebProd,
          ExtCall.asgComplete (chars "hook") (chars "asg")
            (chars "CONTINUE") (chars "i-123")],
         LhOutcome.ok⟩
    ∧ launchPutWebProd.AlarmName = chars "web-prod-i-123-CPUUtilization"
    ∧ launchPutWebProd.Threshold = chars "80"
    ∧ launchPutWebProd.Period = chars "300"
    ∧ launchPutWebProd.Statistic = chars "Average"
    ∧ launchPutWebProd.ComparisonOperator = chars "GreaterThanThreshold"
    ∧ launchPutWebProd.ActionsEnabled = some true := by
  refine ⟨by decide, by decide, by decide, by decide, by decide, by decide,
    by decide⟩

/-- Claim C6 counterexample: the alarm population holds two alarms of
instance i-123 and one alarm of instance i-1234. Terminating i-123
computes the stem web-prod-i-123 without a trailing hyphen, which is also
a string-level stem of i-1234's alarm name: all three alarms are deleted,
including the alarm belonging to instance i-1234, contradicting the claim
that no alarm of any other instance is deleted. -/
theorem C6_counterexample :
    lambda_handler_cw
        ⟨chars "i-123", chars "hook", chars "asg",
         chars "autoscaling:EC2_INSTANCE_TERMINATING"⟩
        webProdTags none
        [⟨chars "web-prod-i-123-CPUUtilization", chars "CPUUtilization"⟩,
         ⟨chars "web-prod-i-123-MemoryUtilization", chars "MemoryUtilization"⟩,
         ⟨chars "web-prod-i-1234-CPUUtilization", chars "CPUUtilization"⟩]
        (chars "sns-topic") noFailE
      = ⟨[ExtCall.cwDescribe (chars "web-prod-i-123"),
          ExtCall.cwDelete
            [chars "web-prod-i-123-CPUUtilization",
             chars "web-prod-i-123-MemoryUtilization",
             chars "web-prod-i-1234-CPUUtilization"],
          ExtCall.asgComplete (chars "hook") (chars "asg")
            (chars "CONTINUE") (chars "i-123")],
         LhOutcome.ok⟩
    ∧ decodeInstanceId (chars "web-prod-i-1234-CPUUtilization")
        ≠ chars "i-123" := by
  refine ⟨by decide, by decide⟩

/-- Claim C6 (amended): on a terminate event for a tagged instance, every
alarm whose name starts with the string app-type-instanceId is deleted -
which is exactly the claimed set except that the stem carries no trailing
hyphen, so alarms of a different instance whose id extends the
terminating one (such as i-1234 versus i-123) are deleted as well - and
afterwards the lifecycle action is completed with result CONTINUE. -/
theorem C6_amended_terminate (detail : LifecycleDetail)
    (tags : List (Str × Str)) (ddbRes : Option (List (Str × DdbItem)))
    (cw : List MetricAlarm) (sns : Str) (fail : ExtCall → Bool) (n t : Str)
    (h1 : pyGet (chars "application-name") tags = some n)
    (h2 : pyGet (chars "application-type") tags = some t)
    (h3 : (pyGet (chars "create-cloudwatch-alarm") tags).isSome)
    (h4 : detail.LifecycleTransition
      = chars "autoscaling:EC2_INSTANCE_TERMINATING")
    (h5 : fail (ExtCall.cwDelete
      (terminateDelNames n t detail.EC2InstanceId cw)) = false) :
    lambda_handler_cw detail tags ddbRes cw sns fail
      = ⟨[ExtCall.cwDescribe (pfx3 n t detail.EC2InstanceId),
          ExtCall.cwDelete (terminateDelNames n t detail.EC2InstanceId cw),
          ExtCall.asgComplete detail.LifecycleHookName
            detail.AutoScalingGroupName (chars "CONTINUE")
            detail.EC2InstanceId],
         LhOutcome.ok⟩ := by
  have hne : ¬ (chars "autoscaling:EC2_INSTANCE_TERMINATING"
      = chars "autoscaling:EC2_INSTANCE_LAUNCHING") := by decide
  simp [lambda_handler_cw, h1, h2, h3, h4, hne, h5]

/-- Claim C6 witness: the amended theorem applied at the claim's own
scenario - exactly the two i-123 alarms present, both deleted, then
CONTINUE. -/
theorem C6_witness :
    lambda_handler_cw
        ⟨chars "i-123", chars "hook", chars "asg",
         chars "autoscaling:EC2_INSTANCE_TERMINATING"⟩
        webProdTags none
        [⟨chars "web-prod-i-123-CPUUtilization", chars "CPUUtilization"⟩,
         ⟨chars "web-prod-i-123-MemoryUtilization", chars "MemoryUtilization"⟩]
        (chars "sns-topic") noFailE
      = ⟨[ExtCall.cwDescribe
            (pfx3 (chars "web") (chars "prod") (chars "i-123")),
          ExtCall.cwDelete (terminateDelNames (chars "web") (chars "prod")
            (chars "i-123")
            [⟨chars "web-prod-i-123-CPUUtilization", chars "CPUUtilization"⟩,
             ⟨chars "web-prod-i-123-MemoryUtilization",
              chars "MemoryUtilization"⟩]),
          ExtCall.asgComplete (chars "hook") (chars "asg")
            (chars "CONTINUE") (chars "i-123")],
         LhOutcome.ok⟩ :=
  C6_amended_terminate
    ⟨chars "i-123", chars "hook", chars "asg",
     chars "autoscaling:EC2_INSTANCE_TERMINATING"⟩
    webProdTags none
    [⟨chars "web-prod-i-123-CPUUtilization", chars "CPUUtilization"⟩,
     ⟨chars "web-prod-i-123-MemoryUtilization", chars "MemoryUtilization"⟩]
    (chars "sns-topic") noFailE (chars "web") (chars "prod")
    (by decide) (by decide) (by decide) rfl rfl

/-- Claim C7: on a launch event for a tagged instance, if the definition
lookup fails or the record is missing or malformed (the None store
result, covering every failure the try at cw_alarm.py lines 120-125
catches before sys.exit(-1)), the invocation terminates fatally: the only
external call is the definition read - no alarm is created and the
lifecycle completion signal is never sent. -/
theorem C7_lookup_failure_fatal (detail : LifecycleDetail)
    (tags : List (Str × Str)) (cw : List MetricAlarm) (sns : Str)
    (fail : ExtCall → Bool) (n t : Str)
    (h1 : pyGet (chars "application-name") tags = some n)
    (h2 : pyGet (chars "application-type") tags = some t)
    (h3 : (pyGet (chars "create-cloudwatch-alarm") tags).isSome)
    (h4 : detail.LifecycleTransition
      = chars "autoscaling:EC2_INSTANCE_LAUNCHING") :
    lambda_handler_cw detail tags none cw sns fail
      = ⟨[ExtCall.ddbGet n t], LhOutcome.exitNeg⟩ := by
  simp [lambda_handler_cw, h1, h2, h3, h4]

/-- Claim C7 witness: the theorem applied at a concrete launch event with
a failing definition lookup. -/
theorem C7_witness :
    lambda_handler_cw
        ⟨chars "i-123", chars "hook", chars "asg",
         chars "autoscaling:EC2_INSTANCE_LAUNCHING"⟩
        webProdTags none [] (chars "sns-topic") noFailE
      = ⟨[ExtCall.ddbGet (chars "web") (chars "prod")], LhOutcome.exitNeg⟩ :=
  C7_lookup_failure_fatal
    ⟨chars "i-123", chars "hook", chars "asg",
     chars "autoscaling:EC2_INSTANCE_LAUNCHING"⟩
    webProdTags [] (chars "sns-topic") noFailE (chars "web") (chars "prod")
    (by decide) (by decide) (by decide) rfl

/-- Claim C8: for every lifecycle event whose instance resolves the
application-name and application-type tags but lacks the
create-cloudwatch-alarm tag, the handler makes no external call at all -
no definition-store read, no alarm create/list/delete, no lifecycle
completion - and exits with status zero, whatever the transition, the
store contents, the alarm population or the failure oracle. -/
theorem C8_untagged_noop (detail : LifecycleDetail)
    (tags : List (Str × Str)) (ddbRes : Option (List (Str × DdbItem)))
    (cw : List MetricAlarm) (sns : Str) (fail : ExtCall → Bool) (n t : Str)
    (h1 : pyGet (chars "application-name") tags = some n)
    (h2 : pyGet (chars "application-type") tags = some t)
    (h3 : pyGet (chars "create-cloudwatch-alarm") tags = none) :
    lambda_handler_cw detail tags ddbRes cw sns fail
      = ⟨[], LhOutcome.exitZero⟩ := by
  simp [lambda_handler_cw, h1, h2, h3]

/-- Claim C8 witness: the theorem applied at a concrete launch event for
an instance tagged web/prod without the applicability tag. -/
theorem C8_witness :
    lambda_handler_cw
        ⟨chars "i-123", chars "hook", chars "asg",
         chars "autoscaling:EC2_INSTANCE_LAUNCHING"⟩
        [(chars "application-name", chars "web"),
         (chars "application-type", chars "prod")]
        (some [(chars "cpu", cpuItem)]) [] (chars "sns-topic") noFailE
      = ⟨[], LhOutcome.exitZero⟩ :=
  C8_untagged_noop
    ⟨chars "i-123", chars "hook", chars "asg",
     chars "autoscaling:EC2_INSTANCE_LAUNCHING"⟩
    [(chars "application-name", chars "web"),
     (chars "application-type", chars "prod")]
    (some [(chars "cpu", cpuItem)]) [] (chars "sns-topic") noFailE
    (chars "web") (chars "prod") (by decide) (by decide) (by decide)

/-- Claim C9 (implicit): the handler subscripts the application-name and
application-type tags (cw_alarm.py lines 109-110) before checking the
create-cloudwatch-alarm applicability tag (line 114); for every lifecycle
event whose instance lacks either of those two tags it raises an uncaught
KeyError before making any external call - it neither skips cleanly nor
completes the lifecycle action, even when the applicability tag is also
absent, and regardless of the transition. -/
theorem C9_missing_app_tags_keyerror (detail : LifecycleDetail)
    (tags : List (Str × Str)) (ddbRes : Option (List (Str × DdbItem)))
    (cw : List MetricAlarm) (sns : Str) (fail : ExtCall → Bool)
    (h : pyGet (chars "application-name") tags = none ∨
         pyGet (chars "application-type") tags = none) :
    lambda_handler_cw detail tags ddbRes cw sns fail
      = ⟨[], LhOutcome.pyError PyErr.keyError⟩ := by
  rcases h with h | h
  · simp [lambda_handler_cw, h]
  · cases hn : pyGet (chars "application-name") tags with
    | none => simp [lambda_handler_cw, hn]
    | some v => simp [lambda_handler_cw, hn, h]

/-- Claim C9 witness: the theorem applied at a terminate event for an
instance carrying only the applicability tag and no app identity tags. -/
theorem C9_witness :
    lambda_handler_cw
        ⟨chars "i-123", chars "hook", chars "asg",
         chars "autoscaling:EC2_INSTANCE_TERMINATING"⟩
        [(chars "create-cloudwatch-alarm", chars "true")]
        none [] (chars "sns-topic") noFailE
      = ⟨[], LhOutcome.pyError PyErr.keyError⟩ :=
  C9_missing_app_tags_keyerror
    ⟨chars "i-123", chars "hook", chars "asg",
     chars "autoscaling:EC2_INSTANCE_TERMINATING"⟩
    [(chars "create-cloudwatch-alarm", chars "true")]
    none [] (chars "sns-topic") noFailE (Or.inl (by decide))

/-- Every call attempted by the creation loop satisfies ddbPlainOp,
whatever the failure oracle. -/
theorem createLoop_plain (name typ iid : Str) (na : List (Str × AlarmDef))
    (exNames : List Str) (fail : CwOp → Bool) :
    ∀ ms op, op ∈ (createLoop name typ iid na exNames fail ms).1 →
      ddbPlainOp op := by
  intro ms
  induction ms with
  | nil => intro op hop; simp [createLoop] at hop
  | cons m ms ih =>
    intro op hop
    simp only [createLoop] at hop
    split at hop
    · exact ih op hop
    · split at hop
      · simp at hop
      · split at hop
        · simp at hop
          subst hop
          exact ⟨rfl, rfl, rfl⟩
        · simp at hop
          rcases hop with rfl | hop
          · exact ⟨rfl, rfl, rfl⟩
          · exact ih op hop

/-- Every call attempted while handling one existing alarm satisfies
ddbPlainOp, whatever the failure oracle. -/
theorem processOne_plain (name typ : Str) (nm : List Str)
    (na : List (Str × AlarmDef)) (exNames : List Str) (fail : CwOp → Bool)
    (e : MetricAlarm) :
    ∀ op, op ∈ (processOne name typ nm na exNames fail e).1 →
      ddbPlainOp op := by
  intro op hop
  simp only [processOne] at hop
  split at hop
  · split at hop
    · simp at hop
    · split at hop
      · simp at hop
        subst hop
        exact ⟨rfl, rfl, rfl⟩
      · simp at hop
        rcases hop with rfl | hop
        · exact ⟨rfl, rfl, rfl⟩
        · exact createLoop_plain name typ _ na exNames fail nm op hop
  · simp at hop
    rcases hop with rfl | hop
    · trivial
    · exact createLoop_plain name typ _ na exNames fail nm op hop

/-- Every call attempted by the loop over existing alarms satisfies
ddbPlainOp, whatever the failure oracle. -/
theorem runAlarms_plain (name typ : Str) (nm : List Str)
    (na : List (Str × AlarmDef)) (exNames : List Str) (fail : CwOp → Bool) :
    ∀ l op, op ∈ (runAlarms name typ nm na exNames fail l).1 →
      ddbPlainOp op := by
  intro l
  induction l with
  | nil => intro op hop; simp [runAlarms] at hop
  | cons e rest ih =>
    intro op hop
    simp only [runAlarms] at hop
    split at hop
    · exact processOne_plain name typ nm na exNames fail e op hop
    · simp only [List.mem_append] at hop
      rcases hop with hop | hop
      · exact processOne_plain name typ nm na exNames fail e op hop
      · exact ih op hop

/-- Every put the launch loop attempts routes its AlarmActions to the
configured SNS topic and sets ActionsEnabled and AlarmDescription. -/
theorem launchLoop_actions (app typ iid sns : Str) :
    ∀ items p, ExtCall.cwPut p ∈ (launchLoop app typ iid sns items).1 →
      p.AlarmActions = some [sns]
        ∧ (∃ b, p.ActionsEnabled = some b)
        ∧ (∃ d, p.AlarmDescription = some d) := by
  intro items
  induction items with
  | nil => intro p hp; simp [launchLoop] at hp
  | cons a rest ih =>
    intro p hp
    obtain ⟨k, item⟩ := a
    simp only [launchLoop] at hp
    split at hp
    · simp at hp
    · simp at hp
      rcases hp with rfl | hp
      · exact ⟨rfl, ⟨_, rfl⟩, ⟨_, rfl⟩⟩
      · exact ih p hp

/-- Every put in the lifecycle handler's trace originates from the launch
loop. -/
theorem handler_put_from_launch (detail : LifecycleDetail)
    (tags : List (Str × Str)) (ddbRes : Option (List (Str × DdbItem)))
    (cw : List MetricAlarm) (sns : Str) (fail : ExtCall → Bool)
    (p : PutParams)
    (hp : ExtCall.cwPut p
      ∈ (lambda_handler_cw detail tags ddbRes cw sns fail).calls) :
    ∃ n t items, ExtCall.cwPut p
      ∈ (launchLoop n t detail.EC2InstanceId sns items).1 := by
  simp only [lambda_handler_cw] at hp
  split at hp
  · simp at hp
  · split at hp
    · simp at hp
    · split at hp
      · split at hp
        · split at hp
          · simp at hp
          · split at hp
            · simp at hp
              exact ⟨_, _, _, hp⟩
            · simp at hp
              exact ⟨_, _, _, hp⟩
        · split at hp
          · split at hp
            · simp at hp
            · simp at hp
          · simp at hp
      · simp at hp

/-- Claim C10 (implicit): every alarm written by the definition-change
reconciler - both the update and the create path - is put with only name,
metric, namespace, dimensions, threshold, period, evaluation periods,
comparison operator and statistic: its ActionsEnabled, AlarmActions and
AlarmDescription are absent, so a reconciled alarm carries no notification
action; whereas every put of the launch path sets AlarmActions to the
configured SNS topic. -/
theorem C10_reconciler_puts_actionless :
    (∀ (name typ : Str) (na : List (Str × AlarmDef)) (ex : List MetricAlarm)
        (fail : CwOp → Bool) (p : PutParams),
        CwOp.put p ∈ (handle_cloudwatch_record name typ na ex fail).1 →
        p.ActionsEnabled = none ∧ p.AlarmActions = none ∧
          p.AlarmDescription = none)
    ∧ (∀ (detail : LifecycleDetail) (tags : List (Str × Str))
        (ddbRes : Option (List (Str × DdbItem))) (cw : List MetricAlarm)
        (sns : Str) (fail : ExtCall → Bool) (p : PutParams),
        ExtCall.cwPut p
          ∈ (lambda_handler_cw detail tags ddbRes cw sns fail).calls →
        p.AlarmActions = some [sns]) := by
  constructor
  · intro name typ na ex fail p hp
    unfold handle_cloudwatch_record at hp
    exact runAlarms_plain name typ (na.map (fun a => a.2.MetricName)) na
      (ex.map (fun a => a.MetricName)) fail ex (CwOp.put p) hp
  · intro detail tags ddbRes cw sns fail p hp
    obtain ⟨n, t, items, hmem⟩ :=
      handler_put_from_launch detail tags ddbRes cw sns fail p hp
    exact (launchLoop_actions n t detail.EC2InstanceId sns items p hmem).1

/-- Claim C10 witness: both parts applied at concrete runs - the
reconciler's update put for i-1 carries none of the three action fields,
and the launch put for i-123 routes to the sns-topic action. -/
theorem C10_witness :
    ((mkDdbPut (chars "web") (chars "prod") (chars "i-1") dCpu).ActionsEnabled
        = none
      ∧ (mkDdbPut (chars "web") (chars "prod") (chars "i-1") dCpu).AlarmActions
        = none
      ∧ (mkDdbPut (chars "web") (chars "prod") (chars "i-1")
          dCpu).AlarmDescription = none)
    ∧ launchPutWebProd.AlarmActions = some [chars "sns-topic"] :=
  ⟨C10_reconciler_puts_actionless.1 (chars "web") (chars "prod")
      [(chars "cpu", dCpu)]
      [⟨chars "web-prod-i-1-CPUUtilization", chars "CPUUtilization"⟩]
      noFail (mkDdbPut (chars "web") (chars "prod") (chars "i-1") dCpu)
      (by decide),
   C10_reconciler_puts_actionless.2
      ⟨chars "i-123", chars "hook", chars "asg",
       chars "autoscaling:EC2_INSTANCE_LAUNCHING"⟩
      webProdTags (some [(chars "cpu", cpuItem)]) [] (chars "sns-topic")
      noFailE launchPutWebProd (by decide)⟩
